import Mathlib

set_option linter.unusedVariables false

/-!
Shallow embedding of the bing_propagation repository's core data path:
the chunker (`src/data_utils/data_splitter.py`), the record mapper
(`src/data_utils/event_creator.py`), the threaded workers
(`src/models/workers.py`) and the batch-upload retry loop
(`src/data_utils/send_batch_events.py`).

Python exceptions are modelled with `Except PyErr`; Python dicts whose
keys are strings are modelled as insertion-ordered association lists;
the external upload endpoint is modelled as a per-round response
oracle `Nat → Response` (one response per executed loop iteration,
which covers every possible endpoint behaviour since each round's
request is a function of the previous responses).
-/

namespace BingPropagation

/-- A value held by a Python dict in this code base: a string-like scalar
(gclids, timestamps, currency codes, numbers are all opaque tokens here)
or Python's `None`. -/
inductive Val where
  | str (s : String)
  | pyNone
deriving DecidableEq, Repr

/-- A Python `dict[str, ...]` as an insertion-ordered association list. -/
abbrev PyDict := List (String × Val)

/-- Python exceptions raised by the embedded code.  `runtimeErrorFrom m e`
is `raise RuntimeError(m ...) from e`; `valueErrorFrom e` is
`raise ValueError(f"Error in creating events: ...") from e` in
`EventCreator.__mapper`; `outOfFuel` is a modelling artifact of the
bounded unfolding of the `while True` loop and is proved unreachable. -/
inductive PyErr where
  | keyError (k : String)
  | indexError
  | attributeError (attr : String)
  | valueError (msg : String)
  | valueErrorFrom (inner : PyErr)
  | runtimeErrorFrom (msg : String) (inner : PyErr)
  | outOfFuel
deriving DecidableEq, Repr

deriving instance DecidableEq for Except

/-- `d[k]` returning `none` when the key is absent (first binding wins,
as in an insertion-ordered dict where keys are unique). -/
def dict_get (d : PyDict) (k : String) : Option Val :=
  match d with
  | [] => none
  | (k', v) :: rest => if k' = k then some v else dict_get rest k

/-- `d[k] = v`: replace the first binding of `k` in place, else append. -/
def dict_set (d : PyDict) (k : String) (v : Val) : PyDict :=
  match d with
  | [] => [(k, v)]
  | (k', v') :: rest => if k' = k then (k', v) :: rest else (k', v') :: dict_set rest k v

/-- `d[k]` raising `KeyError` when the key is absent. -/
def key_lookup (d : PyDict) (k : String) : Except PyErr Val :=
  match dict_get d k with
  | some v => .ok v
  | none => .error (.keyError k)

/-- `DataSplitterThreadedWorker.run_threaded_tasks` (workers.py lines
44-79): submits ONE task over the whole input, returns its result, and
wraps any exception in `RuntimeError(f"Some error: {error}")`. -/
def run_threaded_tasks_single {α β : Type} (task_func : α → Except PyErr β)
    (data_to_process : α) : Except PyErr β :=
  match task_func data_to_process with
  | .ok y => .ok y
  | .error e => .error (.runtimeErrorFrom "Some error" e)

/-- The collection phase of `DataMapperThreadedWorker.run_threaded_tasks`
(workers.py line 129): `[f.result() for f in as_completed(result_futures)]`
— the first failing future's exception aborts the whole comprehension;
sibling tasks still ran but their results are discarded.  (Python
collects in completion order, a nondeterministic permutation of the
submission order; the embedding fixes submission order.  No claim in
this development depends on the order of a successful result list.) -/
def collect_results {α β : Type} (task_func : α → Except PyErr β) :
    List α → Except PyErr (List β)
  | [] => .ok []
  | a :: rest =>
    match task_func a with
    | .error e => .error e
    | .ok b =>
      match collect_results task_func rest with
      | .error e => .error e
      | .ok bs => .ok (b :: bs)

/-- `DataMapperThreadedWorker.run_threaded_tasks` (workers.py lines
98-134): submits one task per element, then collects `f.result()` for
every future via `collect_results`; the whole call's exception is
wrapped in `RuntimeError(f"Some error: {error}")`. -/
def run_threaded_tasks_map {α β : Type} (task_func : α → Except PyErr β)
    (data_to_process : List α) : Except PyErr (List β) :=
  match collect_results task_func data_to_process with
  | .ok ys => .ok ys
  | .error e => .error (.runtimeErrorFrom "Some error" e)

namespace DataSplitter

/-- `DataSplitter.__validate_input` (data_splitter.py lines 94-106), run
by `__init__` before any splitting: the `isinstance(..., list)` check
always passes in this typed embedding; `num_of_splits <= 0` raises
`ValueError("Number of splits must be greater than 0.")`. -/
def validate_input {α : Type} (data_to_split : List α) (num_of_splits : Int) :
    Except PyErr Unit :=
  if num_of_splits ≤ 0 then
    .error (.valueError "Number of splits must be greater than 0.")
  else .ok ()

/-- Python `range(0, stop, step)` for `step ≥ 1`: `⌈stop/step⌉` values
`0, step, 2*step, ...`. -/
def py_range (stop step : Nat) : List Nat :=
  (List.range ((stop + step - 1) / step)).map (fun k => k * step)

/-- `DataSplitter.__split_data` (data_splitter.py lines 53-92), in the
`hasattr(data_to_split, "__getitem__")` branch (a list always has it):
`data_to_split[start : start + num_of_splits]` for
`start in range(0, len(data_to_split), num_of_splits)`; an empty chunk
list raises `ValueError("There is no data to split - please check input
data")`.  `num_of_splits` is validated positive before this runs. -/
def split_data {α : Type} (num_of_splits : Int) (data_to_split : List α) :
    Except PyErr (List (List α)) :=
  let step := num_of_splits.toNat
  let list_of_chunks :=
    (py_range data_to_split.length step).map
      (fun start_num => (data_to_split.drop start_num).take step)
  if list_of_chunks.isEmpty then
    .error (.valueError "There is no data to split - please check input data")
  else .ok list_of_chunks

/-- `DataSplitter.split_data_into_chunks` (data_splitter.py lines
39-51): `__split_data` through the single-task threaded worker. -/
def split_data_into_chunks {α : Type} (data_to_split : List α)
    (num_of_splits : Int) : Except PyErr (List (List α)) :=
  run_threaded_tasks_single (split_data num_of_splits) data_to_split

/-- Construction followed by splitting: `DataSplitter(data, n)` (which
validates) then `.split_data_into_chunks()`. -/
def init_and_split {α : Type} (data_to_split : List α) (num_of_splits : Int) :
    Except PyErr (List (List α)) :=
  match validate_input data_to_split num_of_splits with
  | .error e => .error e
  | .ok _ => split_data_into_chunks data_to_split num_of_splits

/-- Reference recursion for slicing into chunks of size `m + 1`, used
only to reason about `split_data`'s slice expression. -/
def chunk_rec {α : Type} (m : Nat) : List α → List (List α)
  | [] => []
  | a :: l => (a :: l.take m) :: chunk_rec m (l.drop m)
termination_by l => l.length
decreasing_by simp; omega

end DataSplitter

/-- The `OfflineConversion` record built by `EventCreator.__mapper`
(event_creator.py lines 82-98); fields named as assigned there. -/
structure OfflineConversion where
  ConversionCurrencyCode : Val
  ConversionName : Val
  ConversionTime : Val
  ConversionValue : Val
  MicrosoftClickId : Val
deriving DecidableEq, Repr

/-- `BulkOfflineConversion` as returned by `EventCreator.__mapper`: a
wrapper holding the `OfflineConversion` (the commented-out upload call
is dead code). -/
structure BulkOfflineConversion where
  offline_conversion : OfflineConversion
deriving DecidableEq, Repr

namespace EventCreator

/-- Body of `EventCreator.__mapper` (event_creator.py lines 70-111): the
dict subscriptions in source order; a missing key raises `KeyError`. -/
def mapper_inner (data : PyDict) : Except PyErr BulkOfflineConversion :=
  match key_lookup data "currency" with
  | .error e => .error e
  | .ok conversionCurrencyCode =>
    match key_lookup data "conversion_name" with
    | .error e => .error e
    | .ok conversionName =>
      match key_lookup data "conversion_time" with
      | .error e => .error e
      | .ok conversionTime =>
        match key_lookup data "value" with
        | .error e => .error e
        | .ok conversionValue =>
          match key_lookup data "click_id" with
          | .error e => .error e
          | .ok microsoftClickId =>
            .ok { offline_conversion :=
                    { ConversionCurrencyCode := conversionCurrencyCode
                      ConversionName := conversionName
                      ConversionTime := conversionTime
                      ConversionValue := conversionValue
                      MicrosoftClickId := microsoftClickId } }

/-- `EventCreator.__mapper` with its `except` clause: any exception is
wrapped in `ValueError(f"Error in creating events: ...") from error`. -/
def mapper (data : PyDict) : Except PyErr BulkOfflineConversion :=
  match mapper_inner data with
  | .ok bulk => .ok bulk
  | .error e => .error (.valueErrorFrom e)

/-- `EventCreator.map_data` (event_creator.py lines 59-68): `__mapper`
over every record through `DataMapperThreadedWorker`.  The constructor's
`_validate_data` (`isinstance(data, list)`) always passes in this typed
embedding; the `retry=True` kwarg does not influence mapping — it is
stored and never read. -/
def map_data (data : List PyDict) : Except PyErr (List BulkOfflineConversion) :=
  run_threaded_tasks_map mapper data

end EventCreator

/-- One entry of a click conversion's `user_identifiers` (proto3 string
fields default to `""`, which is falsy in Python). -/
structure UserIdentifier where
  hashed_email : String
  hashed_phone_number : String
deriving DecidableEq, Repr

/-- A submitted click conversion as `SendBatchEvents` reads it: the
attributes accessed in `__map_not_accepted_clicks` (send_batch_events.py
lines 215-234).  `gclid` is `""` when the record carries no gclid. -/
structure ClickConversion where
  gclid : String
  conversion_value : String
  conversion_date_time : String
  /-- The conversion action resource name, represented by its
  `/`-separated segments, so that Python's
  `click.conversion_action.split("/")` is this list. -/
  conversion_action : List String
  gbraid : String
  wbraid : String
  currency_code : String
  order_id : String
  user_identifiers : List UserIdentifier
deriving DecidableEq, Repr

/-- An element of the upload loop's `data` list.  The initial batch holds
click-conversion records; after a remapping round the list holds the
`BulkOfflineConversion` objects returned by `EventCreator.map_data`,
which do not carry the click-conversion attributes (accessing
`click.gclid` on one raises `AttributeError` — modelled at the access
site). -/
inductive LoopItem where
  | click (c : ClickConversion)
  | bulk (b : BulkOfflineConversion)
deriving DecidableEq, Repr

/-- One element of `conversion_upload_response.results`: its `gclid` is
`""` for a record the endpoint did not accept (or accepted under another
identifier type). -/
structure ClickResult where
  gclid : String
deriving DecidableEq, Repr

/-- One `error` of a deserialized `GoogleAdsFailure`:
`error.message`, `error.error_code` (opaque token) and the `index`
values of `error.location.field_path_elements`. -/
structure AdsError where
  message : String
  error_code : String
  field_path_indices : List Nat
deriving DecidableEq, Repr

/-- An upload response: `results`, `partial_failure_error.code`, and the
per-detail deserialized failure objects' error lists
(`partial_failure_error.details`, each holding `failure_object.errors`). -/
structure Response where
  results : List ClickResult
  partial_failure_code : Int
  failure_details : List (List AdsError)
deriving DecidableEq, Repr

/-- `clicks` in `__send_events` (send_batch_events.py lines 74-78):
`[str(click.gclid) for click in conversion_upload_response.results if
click.gclid]`. -/
def accepted_clicks (resp : Response) : List String :=
  resp.results.filterMap (fun click => if click.gclid ≠ "" then some click.gclid else none)

/-- The retry-eligible error message matched in `__prase_faliures`
(send_batch_events.py line 180). -/
def timestamp_precedes_message : String :=
  "The imported event has a conversion_date_time that precedes the click. Make sure your conversion_date_time is correct and try again."

/-- The dict appended to `partial_errors_list` for each response error
(send_batch_events.py lines 188-194): the key {"A partial failure at
index": "{i+1} occurred"} is captured by its 1-based number
`index_one_based = i + 1`, with the error's message and code. -/
structure PartialErrorEntry where
  index_one_based : Nat
  error_message : String
  error_code : String
deriving DecidableEq, Repr

/-- A value of the dict returned by `__send_events`. -/
inductive ReportVal where
  | errors (entries : List PartialErrorEntry)
  | results (clicks : List ClickResult)
deriving DecidableEq, Repr

/-- The dict `__send_events` returns, keys in literal order. -/
abbrev SendReport := List (String × ReportVal)

/-- The return dict of `__send_events` (send_batch_events.py lines 92-95
and 109-112): exactly the keys `partial_errors_list` and
`conversion_upload_response_results`. -/
def mk_send_report (partial_errors_list : List PartialErrorEntry)
    (results : List ClickResult) : SendReport :=
  [("partial_errors_list", .errors partial_errors_list),
   ("conversion_upload_response_results", .results results)]

namespace SendBatchEvents

/-- `__is_partial_failure_error_present` (send_batch_events.py lines
117-134): the `partial_failure_error.code` attribute is always present,
so the check is `code != 0`. -/
def is_partial_failure_error_present (resp : Response) : Bool :=
  resp.partial_failure_code ≠ 0

/-- One step of the `user_identifiers` loop of
`__map_not_accepted_clicks` (send_batch_events.py lines 230-234):
`data_to_retry["email"] = identifier.hashed_email` when the hashed email
is truthy, else `data_to_retry["phone"] = identifier.hashed_phone_number`. -/
def apply_user_identifier (data_to_retry : PyDict) (identifier : UserIdentifier) : PyDict :=
  if identifier.hashed_email ≠ "" then
    dict_set data_to_retry "email" (.str identifier.hashed_email)
  else
    dict_set data_to_retry "phone" (.str identifier.hashed_phone_number)

/-- The `data_to_retry` dict built for one not-accepted click
(send_batch_events.py lines 217-234): the literal dict, then the
`user_identifiers` loop overwriting `email` or `phone`.
`click.conversion_action.split("/")[3]` raises `IndexError` when the
resource name has fewer than four segments. -/
def build_retry_dict (click : ClickConversion) : Except PyErr PyDict :=
  match click.conversion_action.get? 3 with
  | none => .error .indexError
  | some conversion_action_id =>
    let base : PyDict :=
      [("value", .str click.conversion_value),
       ("date", .str click.conversion_date_time),
       ("conversion_action_id", .str conversion_action_id),
       ("click_id", .str click.gclid),
       ("gbraid", .str click.gbraid),
       ("wbraid", .str click.wbraid),
       ("currency", .str click.currency_code),
       ("order_id", .str click.order_id),
       ("email", .pyNone),
       ("phone", .pyNone)]
    .ok (click.user_identifiers.foldl apply_user_identifier base)

/-- `__map_not_accepted_clicks` (send_batch_events.py lines 197-238):
keep, in order, every element of `data` whose `gclid` attribute is not
in the accepted set, as its rebuilt `data_to_retry` dict.  Accessing
`click.gclid` on a remapped `BulkOfflineConversion` raises
`AttributeError`. -/
def map_not_accepted_clicks : List LoopItem → List String → Except PyErr (List PyDict)
  | [], _ => .ok []
  | item :: rest, clicks =>
    match item with
    | .bulk _ => .error (.attributeError "gclid")
    | .click c =>
      if c.gclid ∈ clicks then map_not_accepted_clicks rest clicks
      else
        match build_retry_dict c with
        | .error e => .error e
        | .ok d =>
          match map_not_accepted_clicks rest clicks with
          | .error e => .error e
          | .ok ds => .ok (d :: ds)

/-- The error loop of `__prase_faliures` (send_batch_events.py lines
168-194) over the flattened details (each detail deserializes to a
failure whose `errors` are iterated in order): a timestamp-precedes
error appends `attempted_clicks[error.location.field_path_elements[0]
.index]` to the retry list (an out-of-range index raises `IndexError`);
EVERY error appends an entry to `partial_errors_list`. -/
def prase_faliures_errors (attempted_clicks : List PyDict) :
    List AdsError → Except PyErr (List PyDict × List PartialErrorEntry)
  | [] => .ok ([], [])
  | err :: rest =>
    match err.field_path_indices.get? 0 with
    | none => .error .indexError
    | some idx =>
      let retry_head : Except PyErr (List PyDict) :=
        if err.message = timestamp_precedes_message then
          match attempted_clicks.get? idx with
          | none => .error .indexError
          | some click => .ok [click]
        else .ok []
      match retry_head with
      | .error e => .error e
      | .ok rh =>
        match prase_faliures_errors attempted_clicks rest with
        | .error e => .error e
        | .ok (rs, es) =>
          .ok (rh ++ rs,
               { index_one_based := idx + 1
                 error_message := err.message
                 error_code := err.error_code } :: es)

/-- `__prase_faliures` (send_batch_events.py lines 136-195): empty
lists unless a partial-failure error is present, else the error loop
over all details. -/
def prase_faliures (attempted_clicks : List PyDict) (resp : Response) :
    Except PyErr (List PyDict × List PartialErrorEntry) :=
  if is_partial_failure_error_present resp then
    prase_faliures_errors attempted_clicks resp.failure_details.flatten
  else .ok ([], [])

/-- The `while True` loop of `__send_events` (send_batch_events.py lines
60-112), one call per iteration.  `responses i` is the endpoint's
response to the `i`-th submission (`i` is the source's round counter,
starting at 0).  The returned `Nat` instruments the model with the
number of submissions performed (`i + 1` at the return point); it is
not part of the Python return value.  `fuel` bounds the unfolding; from
the entry point (`fuel = 51`, `i = 0`) the `outOfFuel` case is
unreachable because the `i + 1 == 50` check returns first. -/
def send_events_loop (responses : Nat → Response) :
    Nat → List LoopItem → Nat → Except PyErr (SendReport × Nat)
  | 0, _, _ => .error .outOfFuel
  | fuel + 1, data, i =>
    let resp := responses i
    let clicks := accepted_clicks resp
    match map_not_accepted_clicks data clicks with
    | .error e => .error e
    | .ok attempted_clicks =>
      match prase_faliures attempted_clicks resp with
      | .error e => .error e
      | .ok (clicks_to_send_again, partial_errors_list) =>
        if attempted_clicks.length = data.length ∧ clicks_to_send_again = [] then
          .ok (mk_send_report partial_errors_list resp.results, i + 1)
        else
          match EventCreator.map_data clicks_to_send_again with
          | .error e => .error e
          | .ok new_events =>
            if i + 1 = 50 then
              .ok (mk_send_report partial_errors_list resp.results, i + 1)
            else
              send_events_loop responses fuel (new_events.map LoopItem.bulk) (i + 1)

/-- `__send_events` (send_batch_events.py lines 36-115): the empty-data
guard, then the loop inside `try`, whose exceptions are wrapped in
`RuntimeError("Error occurred during event processing.") from error`. -/
def send_events (responses : Nat → Response) (data : List LoopItem) :
    Except PyErr (SendReport × Nat) :=
  if data.isEmpty then .error (.valueError "Data to send is empty.")
  else
    match send_events_loop responses 51 data 0 with
    | .ok r => .ok r
    | .error e => .error (.runtimeErrorFrom "Error occurred during event processing." e)

end SendBatchEvents

/-! Concrete inputs used to exercise the model. -/

/-- A click conversion with gclid `"a"` and a four-segment conversion
action resource name. -/
def ex_click_a : ClickConversion :=
  { gclid := "a", conversion_value := "10",
    conversion_date_time := "2023-01-02 12:00:00",
    conversion_action := ["customers", "123", "conversionActions", "77"],
    gbraid := "", wbraid := "", currency_code := "USD", order_id := "o1",
    user_identifiers := [] }

/-- Like `ex_click_a` with gclid `"b"`. -/
def ex_click_b : ClickConversion := { ex_click_a with gclid := "b", order_id := "o2" }

/-- Like `ex_click_a` with gclid `"c"`. -/
def ex_click_c : ClickConversion := { ex_click_a with gclid := "c", order_id := "o3" }

/-- A click conversion identified only by `gbraid` (empty gclid). -/
def ex_click_no_gclid : ClickConversion :=
  { ex_click_a with gclid := "", gbraid := "gb-1", order_id := "o4" }

/-- The `data_to_retry` dict `__map_not_accepted_clicks` builds for
`ex_click_b`. -/
def ex_retry_b : PyDict :=
  [("value", .str "10"), ("date", .str "2023-01-02 12:00:00"),
   ("conversion_action_id", .str "77"), ("click_id", .str "b"),
   ("gbraid", .str ""), ("wbraid", .str ""), ("currency", .str "USD"),
   ("order_id", .str "o2"), ("email", .pyNone), ("phone", .pyNone)]

/-- The `data_to_retry` dict `__map_not_accepted_clicks` builds for
`ex_click_c`. -/
def ex_retry_c : PyDict :=
  [("value", .str "10"), ("date", .str "2023-01-02 12:00:00"),
   ("conversion_action_id", .str "77"), ("click_id", .str "c"),
   ("gbraid", .str ""), ("wbraid", .str ""), ("currency", .str "USD"),
   ("order_id", .str "o3"), ("email", .pyNone), ("phone", .pyNone)]

/-- A response with no results and no partial failure (e.g. to an empty
resubmission). -/
def resp_empty : Response :=
  { results := [], partial_failure_code := 0, failure_details := [] }

/-- A response accepting a single record with gclid `"a"`, no partial
failure. -/
def resp_accept_one : Response :=
  { results := [{ gclid := "a" }], partial_failure_code := 0, failure_details := [] }

/-- Endpoint behaviour: round 0 accepts everything submitted, later
rounds return an empty response. -/
def oracle_all_accept : Nat → Response :=
  fun i => if i = 0 then resp_accept_one else resp_empty

/-- A response to a two-record batch: the first record accepted, the
second permanently rejected (a non-timestamp error at index 1). -/
def resp_one_permanent : Response :=
  { results := [{ gclid := "a" }, { gclid := "" }],
    partial_failure_code := 3,
    failure_details :=
      [[{ message := "The value is not valid.", error_code := "INVALID_VALUE",
          field_path_indices := [1] }]] }

/-- Endpoint behaviour: round 0 answers `resp_one_permanent`, later
rounds return an empty response. -/
def oracle_one_permanent : Nat → Response :=
  fun i => if i = 0 then resp_one_permanent else resp_empty

/-- A response to a three-record batch: the first record accepted, a
retryable timestamp-precedes error at submitted index 1. -/
def resp_wrong_index : Response :=
  { results := [{ gclid := "a" }, { gclid := "" }, { gclid := "" }],
    partial_failure_code := 3,
    failure_details :=
      [[{ message := timestamp_precedes_message,
          error_code := "CONVERSION_PRECEDES_CLICK",
          field_path_indices := [1] }]] }

/-- A response to a one-record batch rejecting it for the retryable
timestamp-precedes reason (error at index 0). -/
def resp_retry_only : Response :=
  { results := [{ gclid := "" }],
    partial_failure_code := 3,
    failure_details :=
      [[{ message := timestamp_precedes_message,
          error_code := "CONVERSION_PRECEDES_CLICK",
          field_path_indices := [0] }]] }

/-- A raw-record dict holding every key `EventCreator.__mapper` reads. -/
def good_event_dict : PyDict :=
  [("currency", .str "USD"), ("conversion_name", .str "purchase"),
   ("conversion_time", .str "2023-01-02 12:00:00"), ("value", .str "10"),
   ("click_id", .str "a")]

/-- A raw-record dict missing `conversion_name` (and more), so mapping
it fails validation. -/
def bad_event_dict : PyDict := [("currency", .str "USD")]

/-! Helper lemmas about the chunker. -/

namespace DataSplitter

theorem chunk_rec_flatten {α : Type} (m : Nat) (l : List α) :
    (chunk_rec m l).flatten = l := by
  induction l using chunk_rec.induct m with
  | case1 => simp [chunk_rec]
  | case2 a t ih =>
    rw [chunk_rec]
    simp only [List.flatten_cons, List.cons_append, ih]
    simp [List.take_append_drop]

theorem chunk_rec_eq_nil_iff {α : Type} (m : Nat) (l : List α) :
    chunk_rec m l = [] ↔ l = [] := by
  cases l with
  | nil => simp [chunk_rec]
  | cons a t => rw [chunk_rec]; simp

theorem chunk_rec_dropLast_length {α : Type} (m : Nat) (l : List α) :
    ∀ c ∈ (chunk_rec m l).dropLast, c.length = m + 1 := by
  induction l using chunk_rec.induct m with
  | case1 => simp [chunk_rec]
  | case2 a t ih =>
    rw [chunk_rec]
    rcases h : chunk_rec m (t.drop m) with _ | ⟨r, rs⟩
    · simp
    · have hlen : m < t.length := by
        by_contra hle
        have hnil : t.drop m = [] := List.drop_eq_nil_of_le (by omega)
        rw [hnil] at h
        simp [chunk_rec] at h
      intro c hc
      have hstep : ((a :: t.take m) :: r :: rs).dropLast
          = (a :: t.take m) :: (r :: rs).dropLast := by simp
      rw [hstep] at hc
      rcases List.mem_cons.mp hc with h1 | h2
      · subst h1
        simp [Nat.min_eq_left (Nat.le_of_lt hlen)]
      · rw [← h] at h2
        exact ih c h2

theorem py_slices_eq_chunk_rec {α : Type} (m : Nat) (l : List α) :
    (py_range l.length (m + 1)).map (fun s => (l.drop s).take (m + 1)) = chunk_rec m l := by
  induction l using chunk_rec.induct m with
  | case1 =>
    simp [py_range, chunk_rec, Nat.div_eq_of_lt (Nat.lt_succ_self m)]
  | case2 a t ih =>
    have hcount : ((a :: t).length + (m + 1) - 1) / (m + 1) = t.length / (m + 1) + 1 := by
      have h1 : (a :: t).length + (m + 1) - 1 = t.length + (m + 1) := by simp; omega
      rw [h1, Nat.add_div_right _ (Nat.succ_pos m)]
    have hcount' : ((t.drop m).length + (m + 1) - 1) / (m + 1) = t.length / (m + 1) := by
      rcases Nat.le_total m t.length with hle | hlt
      · have h1 : (t.drop m).length + (m + 1) - 1 = t.length := by simp; omega
        rw [h1]
      · have h1 : (t.drop m).length + (m + 1) - 1 = m := by simp; omega
        rw [h1, Nat.div_eq_of_lt (by omega), Nat.div_eq_of_lt (by omega)]
    rw [chunk_rec, ← ih]
    simp only [py_range, hcount, hcount', List.range_succ_eq_map, List.map_cons, List.map_map]
    refine List.cons_eq_cons.mpr ⟨?_, ?_⟩
    · simp
    · refine List.map_congr_left ?_
      intro k _
      simp only [Function.comp_apply]
      rw [List.drop_drop]
      have h2 : Nat.succ k * (m + 1) = (m + k * (m + 1)) + 1 := by
        rw [Nat.succ_mul]; omega
      rw [h2, List.drop_succ_cons]

end DataSplitter

/-- C7: for every non-empty input list and positive `num_of_splits`,
`DataSplitter.split_data_into_chunks` returns chunks whose concatenation
is the original list in order, every chunk but possibly the last of
exactly `num_of_splits` elements. -/
theorem split_data_into_chunks_concat_sizes {α : Type} (l : List α) (n : Int)
    (hl : l ≠ []) (hn : 0 < n) :
    ∃ chunks, DataSplitter.split_data_into_chunks l n = .ok chunks ∧
      chunks.flatten = l ∧ ∀ c ∈ chunks.dropLast, c.length = n.toNat := by
  obtain ⟨m, hm⟩ : ∃ m, n.toNat = m + 1 := ⟨n.toNat - 1, by omega⟩
  have hne : (DataSplitter.chunk_rec m l).isEmpty = false := by
    rw [List.isEmpty_eq_false_iff_exists_mem]
    rcases l with _ | ⟨a, t⟩
    · exact absurd rfl hl
    · exact ⟨_, by rw [DataSplitter.chunk_rec]; exact List.mem_cons_self _ _⟩
  have key : DataSplitter.split_data n l = .ok (DataSplitter.chunk_rec m l) := by
    unfold DataSplitter.split_data
    simp only [hm, DataSplitter.py_slices_eq_chunk_rec, hne, Bool.false_eq_true,
      if_false]
  refine ⟨DataSplitter.chunk_rec m l, ?_, ?_, ?_⟩
  · unfold DataSplitter.split_data_into_chunks run_threaded_tasks_single
    rw [key]
  · exact DataSplitter.chunk_rec_flatten m l
  · rw [hm]; exact DataSplitter.chunk_rec_dropLast_length m l

/-- Witness for C7 at the list `[1, 2, 3]` with `num_of_splits = 2`. -/
theorem split_data_into_chunks_concat_sizes_witness :
    ∃ chunks, DataSplitter.split_data_into_chunks ([1, 2, 3] : List Nat) 2 = .ok chunks ∧
      chunks.flatten = [1, 2, 3] ∧ ∀ c ∈ chunks.dropLast, c.length = (2 : Int).toNat :=
  split_data_into_chunks_concat_sizes [1, 2, 3] 2 (by decide) (by decide)

/-- C8: chunking an empty list always fails with the empty-input
`ValueError` (wrapped by the worker's `RuntimeError`), and a
non-positive `num_of_splits` fails validation at construction, before
any splitting. -/
theorem split_empty_fails_and_nonpositive_size_fails :
    (∀ (α : Type) (n : Int), 0 < n →
      DataSplitter.split_data_into_chunks ([] : List α) n =
        .error (.runtimeErrorFrom "Some error"
          (.valueError "There is no data to split - please check input data"))) ∧
    (∀ (α : Type) (l : List α) (n : Int), n ≤ 0 →
      DataSplitter.validate_input l n =
        .error (.valueError "Number of splits must be greater than 0.") ∧
      DataSplitter.init_and_split l n =
        .error (.valueError "Number of splits must be greater than 0.")) := by
  constructor
  · intro α n hn
    unfold DataSplitter.split_data_into_chunks run_threaded_tasks_single
      DataSplitter.split_data DataSplitter.py_range
    have h0 : (n.toNat - 1) / n.toNat = 0 := Nat.div_eq_of_lt (by omega)
    simp [h0]
  · intro α l n hn
    have hv : DataSplitter.validate_input l n =
        .error (.valueError "Number of splits must be greater than 0.") := by
      unfold DataSplitter.validate_input
      rw [if_pos hn]
    exact ⟨hv, by unfold DataSplitter.init_and_split; rw [hv]⟩

/-- Witness for C8 at `num_of_splits = 2` (empty input) and
`num_of_splits = 0` (bad size). -/
theorem split_empty_fails_and_nonpositive_size_fails_witness :
    DataSplitter.split_data_into_chunks ([] : List Nat) 2 =
      .error (.runtimeErrorFrom "Some error"
        (.valueError "There is no data to split - please check input data")) ∧
    DataSplitter.validate_input ([] : List Nat) 0 =
      .error (.valueError "Number of splits must be greater than 0.") ∧
    DataSplitter.init_and_split ([] : List Nat) 0 =
      .error (.valueError "Number of splits must be greater than 0.") :=
  ⟨split_empty_fails_and_nonpositive_size_fails.1 Nat 2 (by decide),
   (split_empty_fails_and_nonpositive_size_fails.2 Nat [] 0 (by decide)).1,
   (split_empty_fails_and_nonpositive_size_fails.2 Nat [] 0 (by decide)).2⟩

/-! Helper lemmas about dicts and the collection phase. -/

theorem dict_get_dict_set_other (d : PyDict) (k k' : String) (v : Val) (h : k' ≠ k) :
    dict_get (dict_set d k v) k' = dict_get d k' := by
  have hne : ¬ (k = k') := fun hk => h hk.symm
  induction d with
  | nil => simp [dict_set, dict_get, hne]
  | cons p rest ih =>
    obtain ⟨kp, vp⟩ := p
    by_cases hp : kp = k
    · subst hp
      simp [dict_set, dict_get, hne]
    · simp only [dict_set, if_neg hp, dict_get]
      by_cases hq : kp = k'
      · simp [hq]
      · simp [hq, ih]

theorem dict_get_foldl_identifiers (k : String) (hk1 : k ≠ "email") (hk2 : k ≠ "phone") :
    ∀ (idents : List UserIdentifier) (d0 : PyDict),
      dict_get (idents.foldl SendBatchEvents.apply_user_identifier d0) k = dict_get d0 k := by
  intro idents
  induction idents with
  | nil => intro d0; rfl
  | cons ident rest ih =>
    intro d0
    rw [List.foldl_cons, ih]
    unfold SendBatchEvents.apply_user_identifier
    split
    · exact dict_get_dict_set_other d0 "email" k _ hk1
    · exact dict_get_dict_set_other d0 "phone" k _ hk2

theorem collect_results_error_of_mem {α β : Type} (task_func : α → Except PyErr β) :
    ∀ (l : List α) (d : α) (e : PyErr), d ∈ l → task_func d = .error e →
      ∃ e', collect_results task_func l = .error e' := by
  intro l
  induction l with
  | nil => intro d e hmem _; exact absurd hmem (List.not_mem_nil d)
  | cons a t ih =>
    intro d e hmem hf
    rcases h1 : task_func a with e1 | b1
    · exact ⟨e1, by simp [collect_results, h1]⟩
    · rcases List.mem_cons.mp hmem with rfl | hmem'
      · rw [hf] at h1; cases h1
      · obtain ⟨e', he'⟩ := ih d e hmem' hf
        exact ⟨e', by simp [collect_results, h1, he']⟩

/-- C9 (amended): one record failing validation makes the whole
`EventCreator.map_data` call fail with a wrapped `RuntimeError`; no
sibling results are returned to the caller. -/
theorem one_bad_record_aborts_map_data :
    ∀ (l : List PyDict) (d : PyDict) (e : PyErr), d ∈ l →
      EventCreator.mapper d = .error e →
      ∃ e', EventCreator.map_data l = .error (.runtimeErrorFrom "Some error" e') := by
  intro l d e hmem hf
  obtain ⟨e', he'⟩ := collect_results_error_of_mem EventCreator.mapper l d e hmem hf
  exact ⟨e', by unfold EventCreator.map_data run_threaded_tasks_map; rw [he']⟩

/-- C9 counterexample: a batch holding one well-formed record and one
record missing `conversion_name` — the well-formed record maps on its
own, yet the batch call returns no results at all, only the wrapped
failure; the sibling's result is not surfaced. -/
theorem one_bad_record_aborts_map_data_eval :
    EventCreator.mapper good_event_dict =
      .ok { offline_conversion :=
              { ConversionCurrencyCode := .str "USD", ConversionName := .str "purchase",
                ConversionTime := .str "2023-01-02 12:00:00", ConversionValue := .str "10",
                MicrosoftClickId := .str "a" } } ∧
    EventCreator.map_data [good_event_dict, bad_event_dict] =
      .error (.runtimeErrorFrom "Some error"
        (.valueErrorFrom (.keyError "conversion_name"))) :=
  ⟨by decide, by decide⟩

/-- Witness for C9's amended theorem at the concrete two-record batch. -/
theorem one_bad_record_aborts_map_data_witness :
    ∃ e', EventCreator.map_data [good_event_dict, bad_event_dict] =
      .error (.runtimeErrorFrom "Some error" e') :=
  one_bad_record_aborts_map_data [good_event_dict, bad_event_dict] bad_event_dict
    (.valueErrorFrom (.keyError "conversion_name")) (by decide) (by decide)

/-- C5: the `data_to_retry` payload rebuilt by
`__map_not_accepted_clicks` can never be remapped by
`EventCreator`: it has no `conversion_name` key (its keys are `value`,
`date`, `conversion_action_id`, `click_id`, `gbraid`, `wbraid`,
`currency`, `order_id`, `email`, `phone`), so `EventCreator.__mapper`'s
`data["conversion_name"]` always raises, and the remapping call fails
instead of producing a fresh mapped event. -/
theorem retry_payload_never_remaps :
    ∀ (c : ClickConversion) (d : PyDict), SendBatchEvents.build_retry_dict c = .ok d →
      dict_get d "conversion_name" = none ∧
      EventCreator.map_data [d] =
        .error (.runtimeErrorFrom "Some error"
          (.valueErrorFrom (.keyError "conversion_name"))) := by
  intro c d h
  unfold SendBatchEvents.build_retry_dict at h
  rcases hsplit : c.conversion_action.get? 3 with _ | aid
  · rw [hsplit] at h; cases h
  · rw [hsplit] at h
    injection h with h
    subst h
    have hname : dict_get (c.user_identifiers.foldl SendBatchEvents.apply_user_identifier
        [("value", .str c.conversion_value), ("date", .str c.conversion_date_time),
         ("conversion_action_id", .str aid), ("click_id", .str c.gclid),
         ("gbraid", .str c.gbraid), ("wbraid", .str c.wbraid),
         ("currency", .str c.currency_code), ("order_id", .str c.order_id),
         ("email", .pyNone), ("phone", .pyNone)]) "conversion_name" = none := by
      rw [dict_get_foldl_identifiers "conversion_name" (by decide) (by decide)]
      rfl
    have hcurr : dict_get (c.user_identifiers.foldl SendBatchEvents.apply_user_identifier
        [("value", .str c.conversion_value), ("date", .str c.conversion_date_time),
         ("conversion_action_id", .str aid), ("click_id", .str c.gclid),
         ("gbraid", .str c.gbraid), ("wbraid", .str c.wbraid),
         ("currency", .str c.currency_code), ("order_id", .str c.order_id),
         ("email", .pyNone), ("phone", .pyNone)]) "currency" = some (.str c.currency_code) := by
      rw [dict_get_foldl_identifiers "currency" (by decide) (by decide)]
      rfl
    have hmap : EventCreator.mapper (c.user_identifiers.foldl
        SendBatchEvents.apply_user_identifier
        [("value", .str c.conversion_value), ("date", .str c.conversion_date_time),
         ("conversion_action_id", .str aid), ("click_id", .str c.gclid),
         ("gbraid", .str c.gbraid), ("wbraid", .str c.wbraid),
         ("currency", .str c.currency_code), ("order_id", .str c.order_id),
         ("email", .pyNone), ("phone", .pyNone)]) =
        .error (.valueErrorFrom (.keyError "conversion_name")) := by
      unfold EventCreator.mapper EventCreator.mapper_inner key_lookup
      rw [hname, hcurr]
    refine ⟨hname, ?_⟩
    unfold EventCreator.map_data run_threaded_tasks_map collect_results
    rw [hmap]

/-- Witness for C5 at the click with gclid `"b"` and its rebuilt retry
payload. -/
theorem retry_payload_never_remaps_witness :
    dict_get ex_retry_b "conversion_name" = none ∧
    EventCreator.map_data [ex_retry_b] =
      .error (.runtimeErrorFrom "Some error"
        (.valueErrorFrom (.keyError "conversion_name"))) :=
  retry_payload_never_remaps ex_click_b ex_retry_b (by decide)

/-- C1: on a one-record batch that the endpoint fully accepts in round
1, the loop does NOT return in round 1: `len(attempted_clicks) ==
len(data)` is `0 == 1`, so it remaps the empty retry list, resubmits an
empty batch, and only returns after the second round — with the second
round's empty `results`, losing the accepted result, contradicting the
source's own comment "if length is equal then all clicks were accepted". -/
theorem send_events_all_accepted_returns_round_two :
    SendBatchEvents.send_events oracle_all_accept [.click ex_click_a] =
      .ok (mk_send_report [] [], 2) := by decide

/-- C2: three submitted records, the first accepted, a retryable error
whose response index is 1 (the submitted record with gclid `"b"`): the
code indexes `attempted_clicks` (the not-accepted list `[retry_b,
retry_c]`) with the submitted-batch index, so the retry set receives the
record with gclid `"c"` — not the record at the error's submitted-batch
index. -/
theorem prase_faliures_wrong_record_eval :
    SendBatchEvents.map_not_accepted_clicks
        [.click ex_click_a, .click ex_click_b, .click ex_click_c]
        (accepted_clicks resp_wrong_index) = .ok [ex_retry_b, ex_retry_c] ∧
    SendBatchEvents.prase_faliures [ex_retry_b, ex_retry_c] resp_wrong_index =
      .ok ([ex_retry_c],
           [{ index_one_based := 2, error_message := timestamp_precedes_message,
              error_code := "CONVERSION_PRECEDES_CLICK" }]) ∧
    ex_retry_c ≠ ex_retry_b :=
  ⟨by decide, by decide, by decide⟩

/-- C4 counterexample: a record rejected for the recoverable
timestamp-precedes-click reason DOES get an entry in
`partial_errors_list` (the append at lines 188-194 is unconditional),
refuting "records rejected for the recoverable timestamp-precedes-click
reason get no entry". -/
theorem retryable_rejection_gets_error_entry :
    SendBatchEvents.prase_faliures [ex_retry_b] resp_retry_only =
      .ok ([ex_retry_b],
           [{ index_one_based := 1, error_message := timestamp_precedes_message,
              error_code := "CONVERSION_PRECEDES_CLICK" }]) ∧
    ([{ index_one_based := 1, error_message := timestamp_precedes_message,
        error_code := "CONVERSION_PRECEDES_CLICK" }] : List PartialErrorEntry) ≠ [] :=
  ⟨by decide, by decide⟩

/-- C4 (amended): each round's `partial_errors_list` contains one entry
per response error — retryable timestamp-precedes rejections included —
carrying the error's 1-based index, message and code; and the final
report holds only the last round's list: a permanent error recorded in
round 1 is gone from the report returned after round 2 (the list is
rebuilt by `__prase_faliures` each round, not accumulated). -/
theorem prase_entries_every_error_last_round_only :
    (∀ (attempted : List PyDict) (errs : List AdsError) (rs : List PyDict)
       (es : List PartialErrorEntry),
      SendBatchEvents.prase_faliures_errors attempted errs = .ok (rs, es) →
      List.Forall₂ (fun (err : AdsError) (ent : PartialErrorEntry) =>
        ent.error_message = err.message ∧ ent.error_code = err.error_code ∧
        err.field_path_indices.get? 0 = some (ent.index_one_based - 1) ∧
        1 ≤ ent.index_one_based) errs es) ∧
    SendBatchEvents.prase_faliures [ex_retry_b] resp_one_permanent =
      .ok ([], [{ index_one_based := 2, error_message := "The value is not valid.",
                  error_code := "INVALID_VALUE" }]) ∧
    SendBatchEvents.send_events oracle_one_permanent
        [.click ex_click_a, .click ex_click_b] =
      .ok (mk_send_report [] [], 2) := by
  refine ⟨?_, by decide, by decide⟩
  intro attempted errs
  induction errs with
  | nil =>
    intro rs es h
    rw [SendBatchEvents.prase_faliures_errors] at h
    injection h with h
    injection h with ha hb
    rw [← hb]
    exact List.Forall₂.nil
  | cons err rest ih =>
    intro rs es h
    rw [SendBatchEvents.prase_faliures_errors] at h
    rcases hidx : err.field_path_indices.get? 0 with _ | idx
    · rw [hidx] at h; cases h
    · rw [hidx] at h
      simp only at h
      by_cases hmsg : err.message = timestamp_precedes_message
      · rw [if_pos hmsg] at h
        rcases hget : attempted.get? idx with _ | click
        · rw [hget] at h; cases h
        · rw [hget] at h
          rcases hrest : SendBatchEvents.prase_faliures_errors attempted rest with e | p
          · rw [hrest] at h; cases h
          · obtain ⟨rs', es'⟩ := p
            rw [hrest] at h
            injection h with h
            injection h with ha hb
            rw [← hb]
            refine List.Forall₂.cons ⟨rfl, rfl, ?_, Nat.succ_le_succ (Nat.zero_le idx)⟩ (ih rs' es' hrest)
            rw [hidx]; simp
      · rw [if_neg hmsg] at h
        rcases hrest : SendBatchEvents.prase_faliures_errors attempted rest with e | p
        · rw [hrest] at h; cases h
        · obtain ⟨rs', es'⟩ := p
          rw [hrest] at h
          injection h with h
          injection h with ha hb
          rw [← hb]
          refine List.Forall₂.cons ⟨rfl, rfl, ?_, Nat.succ_le_succ (Nat.zero_le idx)⟩ (ih rs' es' hrest)
          rw [hidx]; simp

/-- Witness for C4's amended theorem at the single retryable error of
`resp_retry_only`. -/
theorem prase_entries_every_error_last_round_only_witness :
    List.Forall₂ (fun (err : AdsError) (ent : PartialErrorEntry) =>
        ent.error_message = err.message ∧ ent.error_code = err.error_code ∧
        err.field_path_indices.get? 0 = some (ent.index_one_based - 1) ∧
        1 ≤ ent.index_one_based)
      resp_retry_only.failure_details.flatten
      [{ index_one_based := 1, error_message := timestamp_precedes_message,
         error_code := "CONVERSION_PRECEDES_CLICK" }] :=
  prase_entries_every_error_last_round_only.1 [ex_retry_b]
    resp_retry_only.failure_details.flatten [ex_retry_b]
    [{ index_one_based := 1, error_message := timestamp_precedes_message,
       error_code := "CONVERSION_PRECEDES_CLICK" }] (by decide)

/-- C3 counterexample: a run in which a record was permanently rejected
in round 1 still returns the fixed two-key report — there is no
`roundsExhausted` key in it (and, here, not even the recorded error
survives to the report). -/
theorem send_report_has_no_rounds_flag_eval :
    SendBatchEvents.send_events oracle_one_permanent
        [.click ex_click_a, .click ex_click_b] =
      .ok (mk_send_report [] [], 2) ∧
    "roundsExhausted" ∉ (mk_send_report [] []).map Prod.fst :=
  ⟨by decide, by decide⟩

theorem send_events_loop_report_shape (responses : Nat → Response) :
    ∀ (fuel : Nat) (data : List LoopItem) (i : Nat) (r : SendReport) (n : Nat),
      SendBatchEvents.send_events_loop responses fuel data i = .ok (r, n) →
      ∃ es res, r = mk_send_report es res := by
  intro fuel
  induction fuel with
  | zero => intro data i r n h; cases h
  | succ f ih =>
    intro data i r n h
    rw [SendBatchEvents.send_events_loop] at h
    rcases h1 : SendBatchEvents.map_not_accepted_clicks data
        (accepted_clicks (responses i)) with e | att
    · rw [h1] at h; cases h
    · rw [h1] at h
      simp only at h
      rcases h2 : SendBatchEvents.prase_faliures att (responses i) with e | p
      · rw [h2] at h; cases h
      · obtain ⟨retry, errs⟩ := p
        rw [h2] at h
        simp only at h
        by_cases hterm : att.length = data.length ∧ retry = []
        · rw [if_pos hterm] at h
          injection h with h
          injection h with ha hb
          exact ⟨errs, (responses i).results, ha.symm⟩
        · rw [if_neg hterm] at h
          rcases h3 : EventCreator.map_data retry with e | new_events
          · rw [h3] at h; cases h
          · rw [h3] at h
            simp only at h
            by_cases hcap : i + 1 = 50
            · rw [if_pos hcap] at h
              injection h with h
              injection h with ha hb
              exact ⟨errs, (responses i).results, ha.symm⟩
            · rw [if_neg hcap] at h
              exact ih _ _ r n h

/-- C3 (amended): every report the upload loop returns — on any path,
the round-cap return included — is the fixed two-key dict
`{partial_errors_list, conversion_upload_response_results}`; it carries
no `roundsExhausted` key, so a caller cannot distinguish cap-exhaustion
from normal termination by the returned report. -/
theorem send_report_keys_fixed :
    ∀ (responses : Nat → Response) (data : List LoopItem) (r : SendReport) (n : Nat),
      SendBatchEvents.send_events responses data = .ok (r, n) →
      r.map Prod.fst = ["partial_errors_list", "conversion_upload_response_results"] ∧
      "roundsExhausted" ∉ r.map Prod.fst := by
  intro responses data r n h
  unfold SendBatchEvents.send_events at h
  by_cases hemp : data.isEmpty
  · rw [if_pos hemp] at h; cases h
  · rw [if_neg hemp] at h
    rcases hloop : SendBatchEvents.send_events_loop responses 51 data 0 with e | p
    · rw [hloop] at h; cases h
    · obtain ⟨r', n'⟩ := p
      rw [hloop] at h
      injection h with h
      injection h with ha hb
      obtain ⟨es, res, hshape⟩ :=
        send_events_loop_report_shape responses 51 data 0 r' n' hloop
      rw [← ha, hshape]
      exact ⟨by simp [mk_send_report], by simp [mk_send_report]⟩

/-- Witness for C3's amended theorem at a concrete successful run. -/
theorem send_report_keys_fixed_witness :
    (mk_send_report [] []).map Prod.fst =
      ["partial_errors_list", "conversion_upload_response_results"] ∧
    "roundsExhausted" ∉ (mk_send_report [] []).map Prod.fst :=
  send_report_keys_fixed oracle_one_permanent [.click ex_click_a, .click ex_click_b]
    (mk_send_report [] []) 2 (by decide)

/-! Error-shape lemmas: no sub-computation of the loop body produces the
`outOfFuel` sentinel, so the bounded unfolding is semantically exact. -/

theorem build_retry_dict_error_shape (c : ClickConversion) (e : PyErr)
    (h : SendBatchEvents.build_retry_dict c = .error e) : e = .indexError := by
  unfold SendBatchEvents.build_retry_dict at h
  rcases hg : c.conversion_action.get? 3 with _ | aid
  · simp only [hg] at h
    injection h with h
    exact h.symm
  · simp only [hg] at h
    exact Except.noConfusion h

theorem map_not_accepted_clicks_error_shape :
    ∀ (data : List LoopItem) (clicks : List String) (e : PyErr),
      SendBatchEvents.map_not_accepted_clicks data clicks = .error e →
      e = .attributeError "gclid" ∨ e = .indexError := by
  intro data
  induction data with
  | nil =>
    intro clicks e h
    rw [SendBatchEvents.map_not_accepted_clicks.eq_def] at h
    simp only at h
    exact Except.noConfusion h
  | cons item rest ih =>
    intro clicks e h
    rw [SendBatchEvents.map_not_accepted_clicks.eq_def] at h
    cases item with
    | bulk b =>
      simp only at h
      injection h with h
      exact .inl h.symm
    | click c =>
      simp only at h
      by_cases hin : c.gclid ∈ clicks
      · rw [if_pos hin] at h
        exact ih clicks e h
      · rw [if_neg hin] at h
        rcases hb : SendBatchEvents.build_retry_dict c with eb | d
        · simp only [hb] at h
          injection h with h
          subst h
          exact .inr (build_retry_dict_error_shape c eb hb)
        · simp only [hb] at h
          rcases hr : SendBatchEvents.map_not_accepted_clicks rest clicks with er | ds
          · simp only [hr] at h
            injection h with h
            subst h
            exact ih clicks er hr
          · simp only [hr] at h
            exact Except.noConfusion h

theorem prase_faliures_errors_error_shape :
    ∀ (attempted : List PyDict) (errs : List AdsError) (e : PyErr),
      SendBatchEvents.prase_faliures_errors attempted errs = .error e →
      e = .indexError := by
  intro attempted errs
  induction errs with
  | nil =>
    intro e h
    rw [SendBatchEvents.prase_faliures_errors] at h
    exact Except.noConfusion h
  | cons err rest ih =>
    intro e h
    rw [SendBatchEvents.prase_faliures_errors] at h
    rcases hidx : err.field_path_indices.get? 0 with _ | idx
    · simp only [hidx] at h
      injection h with h
      exact h.symm
    · simp only [hidx] at h
      by_cases hmsg : err.message = timestamp_precedes_message
      · rw [if_pos hmsg] at h
        rcases hget : attempted.get? idx with _ | click
        · simp only [hget] at h
          injection h with h
          exact h.symm
        · simp only [hget] at h
          rcases hrest : SendBatchEvents.prase_faliures_errors attempted rest with er | p
          · simp only [hrest] at h
            injection h with h
            subst h
            exact ih er hrest
          · obtain ⟨rs', es'⟩ := p
            simp only [hrest] at h
            exact Except.noConfusion h
      · rw [if_neg hmsg] at h
        rcases hrest : SendBatchEvents.prase_faliures_errors attempted rest with er | p
        · simp only [hrest] at h
          injection h with h
          subst h
          exact ih er hrest
        · obtain ⟨rs', es'⟩ := p
          simp only [hrest] at h
          exact Except.noConfusion h

theorem prase_faliures_error_shape (attempted : List PyDict) (resp : Response)
    (e : PyErr) (h : SendBatchEvents.prase_faliures attempted resp = .error e) :
    e = .indexError := by
  unfold SendBatchEvents.prase_faliures at h
  split at h
  · exact prase_faliures_errors_error_shape attempted _ e h
  · exact Except.noConfusion h

theorem map_data_error_shape (l : List PyDict) (e : PyErr)
    (h : EventCreator.map_data l = .error e) :
    ∃ e', e = .runtimeErrorFrom "Some error" e' := by
  unfold EventCreator.map_data run_threaded_tasks_map at h
  rcases hc : collect_results EventCreator.mapper l with ec | ys
  · simp only [hc] at h
    injection h with h
    exact ⟨ec, h.symm⟩
  · simp only [hc] at h
    exact Except.noConfusion h

theorem send_events_loop_bound (responses : Nat → Response) :
    ∀ (fuel : Nat) (data : List LoopItem) (i : Nat), fuel + i = 51 → i ≤ 49 →
      (SendBatchEvents.send_events_loop responses fuel data i ≠ .error .outOfFuel) ∧
      (∀ r n, SendBatchEvents.send_events_loop responses fuel data i = .ok (r, n) →
        n ≤ 50) := by
  intro fuel
  induction fuel with
  | zero => intro data i h1 h2; omega
  | succ f ih =>
    intro data i h1 h2
    constructor
    · intro hcon
      rw [SendBatchEvents.send_events_loop] at hcon
      rcases hm : SendBatchEvents.map_not_accepted_clicks data
          (accepted_clicks (responses i)) with e | att
      · simp only [hm] at hcon
        injection hcon with hc
        subst hc
        rcases map_not_accepted_clicks_error_shape data _ _ hm with h' | h' <;>
          exact PyErr.noConfusion h'
      · simp only [hm] at hcon
        rcases hp : SendBatchEvents.prase_faliures att (responses i) with e | p
        · simp only [hp] at hcon
          injection hcon with hc
          subst hc
          exact PyErr.noConfusion (prase_faliures_error_shape att _ _ hp)
        · obtain ⟨retry, errs⟩ := p
          simp only [hp] at hcon
          by_cases hterm : att.length = data.length ∧ retry = []
          · rw [if_pos hterm] at hcon
            exact Except.noConfusion hcon
          · rw [if_neg hterm] at hcon
            rcases hd : EventCreator.map_data retry with e | new_events
            · simp only [hd] at hcon
              injection hcon with hc
              subst hc
              obtain ⟨e', he'⟩ := map_data_error_shape retry _ hd
              exact PyErr.noConfusion he'
            · simp only [hd] at hcon
              by_cases hcap : i + 1 = 50
              · rw [if_pos hcap] at hcon
                exact Except.noConfusion hcon
              · rw [if_neg hcap] at hcon
                exact (ih _ (i + 1) (by omega) (by omega)).1 hcon
    · intro r n hok
      rw [SendBatchEvents.send_events_loop] at hok
      rcases hm : SendBatchEvents.map_not_accepted_clicks data
          (accepted_clicks (responses i)) with e | att
      · simp only [hm] at hok
        exact Except.noConfusion hok
      · simp only [hm] at hok
        rcases hp : SendBatchEvents.prase_faliures att (responses i) with e | p
        · simp only [hp] at hok
          exact Except.noConfusion hok
        · obtain ⟨retry, errs⟩ := p
          simp only [hp] at hok
          by_cases hterm : att.length = data.length ∧ retry = []
          · rw [if_pos hterm] at hok
            injection hok with hok
            injection hok with ha hb
            omega
          · rw [if_neg hterm] at hok
            rcases hd : EventCreator.map_data retry with e | new_events
            · simp only [hd] at hok
              exact Except.noConfusion hok
            · simp only [hd] at hok
              by_cases hcap : i + 1 = 50
              · rw [if_pos hcap] at hok
                injection hok with hok
                injection hok with ha hb
                omega
              · rw [if_neg hcap] at hok
                exact (ih _ (i + 1) (by omega) (by omega)).2 r n hok

/-- C6: for every endpoint behaviour and every initial batch, the upload
loop terminates — it never exhausts the bounded unfolding (the model's
`outOfFuel` sentinel is unreachable), and whenever it returns a report
it has performed at most 50 submission rounds.  (A failure propagating
as a wrapped exception is also a terminating outcome.) -/
theorem send_events_terminates_within_cap :
    ∀ (responses : Nat → Response) (data : List LoopItem),
      (SendBatchEvents.send_events responses data ≠
        .error (.runtimeErrorFrom "Error occurred during event processing."
          .outOfFuel)) ∧
      (∀ r n, SendBatchEvents.send_events responses data = .ok (r, n) → n ≤ 50) := by
  intro responses data
  have hloop := send_events_loop_bound responses 51 data 0 (by omega) (by omega)
  unfold SendBatchEvents.send_events
  by_cases hemp : data.isEmpty
  · rw [if_pos hemp]
    constructor
    · intro hcon
      injection hcon with hc
      exact PyErr.noConfusion hc
    · intro r n h
      exact Except.noConfusion h
  · rw [if_neg hemp]
    rcases hres : SendBatchEvents.send_events_loop responses 51 data 0 with e | p
    · simp only [hres]
      constructor
      · intro hcon
        injection hcon with hc
        injection hc with hmsg hinner
        exact hloop.1 (by rw [hres, hinner])
      · intro r n h
        exact Except.noConfusion h
    · obtain ⟨r', n'⟩ := p
      simp only [hres]
      constructor
      · intro hcon
        exact Except.noConfusion hcon
      · intro r n h
        injection h with h
        injection h with ha hb
        rw [← hb]
        exact hloop.2 r' n' hres

/-- Witness for C6 at the all-accepting endpoint and a one-record batch:
the run returns after 2 submission rounds, within the cap of 50. -/
theorem send_events_terminates_within_cap_witness :
    SendBatchEvents.send_events oracle_all_accept [.click ex_click_a] =
      .ok (mk_send_report [] [], 2) ∧ (2 : Nat) ≤ 50 :=
  ⟨by decide,
   (send_events_terminates_within_cap oracle_all_accept [.click ex_click_a]).2
     (mk_send_report [] []) 2 (by decide)⟩

/-- C10: acceptance classification is keyed solely on the gclid: the
accepted-click set never contains the empty gclid, and a submitted
click-conversion record whose gclid is empty (e.g. identified only by
gbraid or wbraid) is always placed in the not-accepted list (as its
rebuilt retry dict), whatever the endpoint reports. -/
theorem gclid_keyed_acceptance :
    (∀ resp : Response, "" ∉ accepted_clicks resp) ∧
    (∀ (data : List LoopItem) (clicks : List String) (c : ClickConversion)
       (res : List PyDict),
      LoopItem.click c ∈ data → c.gclid = "" → "" ∉ clicks →
      SendBatchEvents.map_not_accepted_clicks data clicks = .ok res →
      ∃ d, SendBatchEvents.build_retry_dict c = .ok d ∧ d ∈ res) := by
  constructor
  · intro resp h
    unfold accepted_clicks at h
    rw [List.mem_filterMap] at h
    obtain ⟨click, _, hcl⟩ := h
    by_cases hg : click.gclid = ""
    · rw [if_neg (by simp [hg])] at hcl
      exact Option.noConfusion hcl
    · rw [if_pos hg] at hcl
      injection hcl with hcl
      exact hg hcl
  · intro data
    induction data with
    | nil =>
      intro clicks c res hmem
      exact absurd hmem (List.not_mem_nil _)
    | cons item rest ih =>
      intro clicks c res hmem hg hnc h
      rw [SendBatchEvents.map_not_accepted_clicks.eq_def] at h
      cases item with
      | bulk b =>
        simp only at h
        exact Except.noConfusion h
      | click c' =>
        simp only at h
        by_cases hin : c'.gclid ∈ clicks
        · rw [if_pos hin] at h
          rcases List.mem_cons.mp hmem with heq | hmem'
          · have hcc : c = c' := by injection heq
            subst hcc
            rw [hg] at hin
            exact absurd hin hnc
          · exact ih clicks c res hmem' hg hnc h
        · rw [if_neg hin] at h
          rcases hbuild : SendBatchEvents.build_retry_dict c' with e | d
          · simp only [hbuild] at h
            exact Except.noConfusion h
          · simp only [hbuild] at h
            rcases hrest : SendBatchEvents.map_not_accepted_clicks rest clicks with e | ds
            · simp only [hrest] at h
              exact Except.noConfusion h
            · simp only [hrest] at h
              injection h with h
              subst h
              rcases List.mem_cons.mp hmem with heq | hmem'
              · have hcc : c = c' := by injection heq
                subst hcc
                exact ⟨d, hbuild, List.mem_cons_self _ _⟩
              · obtain ⟨d', hd', hmem''⟩ := ih clicks c ds hmem' hg hnc hrest
                exact ⟨d', hd', List.mem_cons_of_mem _ hmem''⟩

/-- Witness for C10 at a gbraid-only record against a response that
accepted gclid `"a"`. -/
theorem gclid_keyed_acceptance_witness :
    ∃ d, SendBatchEvents.build_retry_dict ex_click_no_gclid = .ok d ∧
      d ∈ [[("value", Val.str "10"), ("date", Val.str "2023-01-02 12:00:00"),
            ("conversion_action_id", Val.str "77"), ("click_id", Val.str ""),
            ("gbraid", Val.str "gb-1"), ("wbraid", Val.str ""),
            ("currency", Val.str "USD"), ("order_id", Val.str "o4"),
            ("email", Val.pyNone), ("phone", Val.pyNone)]] :=
  gclid_keyed_acceptance.2 [.click ex_click_no_gclid] ["a"] ex_click_no_gclid
    _ (by decide) (by decide) (by decide) (by decide)

end BingPropagation
